import Mathlib

/-!
Verification of the chatkit-starter session broker and chat panel.

The definitions below are a shallow embedding of the TypeScript sources:
  * `src/app/api/create-session/route.ts` (the current session broker `POST`),
  * `src/unnamed/part_000` (a historical broker variant; its `getUpstreamMessage`),
  * `src/unnamed/part_002` (a historical broker variant with a retry fallback),
  * `src/components/ChatKitPanel.tsx` (the browser panel's client-tool handling).
JavaScript semantics (nullish coalescing, truthiness, `String(x)` conversion,
`split`/`trim`/`join`, `encodeURIComponent`) are modelled explicitly.
-/

/-- A JSON value, as produced by `JSON.parse`. Numbers are modelled as integers
(the payloads in this codebase carry no fractional numbers). -/
inductive Json where
  | null : Json
  | str : String → Json
  | num : Int → Json
  | bool : Bool → Json
  | obj : List (String × Json) → Json
  | arr : List Json → Json

/-- Property access `v?.k` under JavaScript semantics: `none` models
`undefined` (absent binding, or access on a non-object / through `?.` on a
nullish value). -/
def jsField (v : Option Json) (k : String) : Option Json :=
  match v with
  | some (Json.obj fs) => (fs.find? (fun p => p.1 == k)).map (fun p => p.2)
  | _ => none

/-- A JavaScript value is nullish when it is `undefined` or `null`. -/
def jsNullish (v : Option Json) : Bool :=
  match v with
  | none => true
  | some Json.null => true
  | _ => false

/-- Nullish coalescing `a ?? b`. -/
def jsCoalesce (a b : Option Json) : Option Json :=
  if jsNullish a then b else a

/-- JavaScript falsiness for the values representable here:
`undefined`, `null`, `""`, `0` and `false` are falsy. -/
def jsFalsy (v : Option Json) : Bool :=
  match v with
  | none => true
  | some Json.null => true
  | some (Json.str s) => s == ""
  | some (Json.num n) => n == 0
  | some (Json.bool b) => !b
  | _ => false

/-- `x ?? null` as used on upstream fields: nullish values collapse to `null`. -/
def jsOrNull (v : Option Json) : Json :=
  match jsCoalesce v (some Json.null) with
  | some j => j
  | none => Json.null

mutual

/-- JavaScript `String(x)` conversion for `Json` values. -/
def jsToString : Json → String
  | Json.null => "null"
  | Json.str s => s
  | Json.num n => toString n
  | Json.bool true => "true"
  | Json.bool false => "false"
  | Json.obj _ => "[object Object]"
  | Json.arr xs => jsToStringList xs

/-- `Array.prototype.toString`: elements joined with `,`. -/
def jsToStringList : List Json → String
  | [] => ""
  | [x] => jsToString x
  | x :: xs => jsToString x ++ "," ++ jsToStringList xs

end

/-- JavaScript whitespace (the `\s` class restricted to the ASCII range used
by this codebase's payloads). -/
def isJsWs (c : Char) : Bool :=
  c == ' ' || c == '\t' || c == '\n' || c == '\r' || c.toNat == 11 || c.toNat == 12

/-- `String.prototype.split` with a one-character separator (accumulator pass). -/
def splitOnCharAux (sep : Char) : List Char → List Char → List (List Char)
  | [], acc => [acc.reverse]
  | c :: cs, acc =>
    if c == sep then acc.reverse :: splitOnCharAux sep cs []
    else splitOnCharAux sep cs (c :: acc)

/-- `String.prototype.split` with a one-character separator. -/
def splitOnChar (sep : Char) (l : List Char) : List (List Char) :=
  splitOnCharAux sep l []

/-- `String.prototype.trim` on character lists. -/
def trimChars (l : List Char) : List Char :=
  ((l.dropWhile isJsWs).reverse.dropWhile isJsWs).reverse

/-- `Array.prototype.join(sep)`. -/
def joinWith (sep : String) : List String → String
  | [] => ""
  | [x] => x
  | x :: xs => x ++ sep ++ joinWith sep xs

/-- Lower-case an ASCII letter, as `String.prototype.toLowerCase` does on the
ASCII strings compared by this codebase. -/
def jsLowerChar (c : Char) : Char :=
  if 65 ≤ c.toNat && c.toNat ≤ 90 then Char.ofNat (c.toNat + 32) else c

/-- `String.prototype.toLowerCase` (ASCII range). -/
def jsLower (s : String) : String :=
  String.mk (s.data.map jsLowerChar)

/-- Whether `pat` occurs as a contiguous run inside `l`
(`String.prototype.includes`). -/
def listHasInfix (pat : List Char) : List Char → Bool
  | [] => decide (pat = [])
  | c :: cs => pat.isPrefixOf (c :: cs) || listHasInfix pat cs

/-- `String.prototype.includes`. -/
def strIncludes (s pat : String) : Bool :=
  listHasInfix pat.data s.data

/-- Lower-case hexadecimal digit for `n < 16`. -/
def hexChar (n : Nat) : Char :=
  if n < 10 then Char.ofNat (48 + n) else Char.ofNat (87 + n)

/-- Upper-case hexadecimal digit for `n < 16` (percent-encoding uses these). -/
def hexCharUpper (n : Nat) : Char :=
  if n < 10 then Char.ofNat (48 + n) else Char.ofNat (55 + n)

/-- `n` written as exactly `d` lower-case hex digits (most significant first,
excess bits discarded). -/
def toHexList : Nat → Nat → List Char
  | 0, _ => []
  | d + 1, n => toHexList d (n / 16) ++ [hexChar (n % 16)]

/-- UTF-8 bytes of a character, as natural numbers. -/
def utf8Bytes (c : Char) : List Nat :=
  let n := c.toNat
  if n < 128 then [n]
  else if n < 2048 then [192 + n / 64, 128 + n % 64]
  else if n < 65536 then [224 + n / 4096, 128 + (n / 64) % 64, 128 + n % 64]
  else [240 + n / 262144, 128 + (n / 4096) % 64, 128 + (n / 64) % 64, 128 + n % 64]

/-- Characters `encodeURIComponent` leaves unescaped. -/
def isUriUnreserved (c : Char) : Bool :=
  c.isAlpha || c.isDigit || c == '-' || c == '_' || c == '.' ||
  c == '!' || c == '~' || c == '*' || c.toNat == 39 || c == '(' || c == ')'

/-- `%XX` escape of one byte. -/
def percentEncodeByte (b : Nat) : List Char :=
  ['%', hexCharUpper (b / 16 % 16), hexCharUpper (b % 16)]

/-- JavaScript `encodeURIComponent`. -/
def encodeURIComponent (s : String) : String :=
  String.mk (s.data.foldr
    (fun c acc =>
      (if isUriUnreserved c then [c]
       else (utf8Bytes c).foldr (fun b a => percentEncodeByte b ++ a) []) ++ acc)
    [])

/-- ASCII hex-digit test (both cases), used by the UUID shape check. -/
def isHexDigit (c : Char) : Bool :=
  (48 ≤ c.toNat && c.toNat ≤ 57) || (97 ≤ c.toNat && c.toNat ≤ 102) ||
  (65 ≤ c.toNat && c.toNat ≤ 70)

/-- Syntactic UUID shape: 8-4-4-4-12 hex-digit groups separated by hyphens. -/
def isValidUUID (s : String) : Bool :=
  let l := s.data
  l.length == 36 &&
  (l.take 8).all isHexDigit && (l.drop 8).head? == some '-' &&
  ((l.drop 9).take 4).all isHexDigit && (l.drop 13).head? == some '-' &&
  ((l.drop 14).take 4).all isHexDigit && (l.drop 18).head? == some '-' &&
  ((l.drop 19).take 4).all isHexDigit && (l.drop 23).head? == some '-' &&
  (l.drop 24).all isHexDigit

/-- Modelled from the spec and the Web Crypto contract of the builtin
`crypto.randomUUID` (the builtin is outside this repository): a version-4
UUID string formatted from a supply `r` of random bits. -/
def randomUUID (r : Nat) : String :=
  let a := toHexList 8 r
  let b := toHexList 4 (r / 16 ^ 8)
  let c := toHexList 4 (16384 + (r / 16 ^ 12) % 4096)
  let d := toHexList 4 (32768 + (r / 16 ^ 15) % 16384)
  let e := toHexList 12 (r / 16 ^ 19)
  String.mk (a ++ '-' :: b ++ '-' :: c ++ '-' :: d ++ '-' :: e)

/-! ## Session broker environment and request model -/

/-- Outcome of one upstream `fetch`: either the promise rejected
(`Except.error`), or an HTTP status plus the result of `.json()`
(`none` when the body was not parseable JSON). -/
structure UpstreamHttp where
  status : Nat
  jsonBody : Option Json

/-- Server environment and ambient platform state for one handled request.
`workflowId` models the `WORKFLOW_ID` value imported from `"@/lib/config"`
(that module is not part of the sources; per the spec it is the
server-configured default workflow id, an environment-derived string or
absent). `upstream` is the first upstream call's outcome and `upstream2`
the second attempt's (used only by the historical retry variant). -/
structure Env where
  openaiApiKey : Option String
  workflowId : Option String
  nodeEnvProduction : Bool
  cryptoHasRandomUUID : Bool
  uuidSeed : Nat
  mathRandomId : String
  upstream : Except Unit UpstreamHttp
  upstream2 : Except Unit UpstreamHttp

/-- The request body as received: absent/empty text, non-empty text that is
not valid JSON, or well-formed JSON. -/
inductive BodyInput where
  | empty : BodyInput
  | malformed : String → BodyInput
  | wellFormed : Json → BodyInput

/-- An incoming HTTP request: its `Cookie` header and its body. -/
structure Req where
  cookieHeader : Option String
  body : BodyInput

/-- An outgoing HTTP response: status, JSON body, and the `Set-Cookie`
header if one was appended. -/
structure HttpResponse where
  status : Nat
  body : Json
  setCookie : Option String

/-- `safeParseJson`: empty text and JSON parse failures both yield `null`. -/
def safeParseJson : BodyInput → Option Json
  | BodyInput.empty => none
  | BodyInput.malformed _ => none
  | BodyInput.wellFormed j => some j

def SESSION_COOKIE_NAME : String := "chatkit_session_id"

def SESSION_COOKIE_MAX_AGE : Nat := 60 * 60 * 24 * 30

/-- The loop body of `getCookieValue`: scan the `;`-separated cookies, split
each on `=`, skip entries with an empty raw name or no `=`, and return the
`=`-rejoined, trimmed value of the first whose trimmed name matches. -/
def findCookie (name : String) : List (List Char) → Option String
  | [] => none
  | c :: cs =>
    match splitOnChar '=' c with
    | [] => findCookie name cs
    | rawName :: rest =>
      if rawName == [] || rest == [] then findCookie name cs
      else if String.mk (trimChars rawName) == name then
        some (String.mk (trimChars (joinWith "=" (rest.map String.mk)).data))
      else findCookie name cs

/-- `getCookieValue` from `route.ts`. -/
def getCookieValue (cookieHeader : Option String) (name : String) : Option String :=
  match cookieHeader with
  | none => none
  | some h => findCookie name (splitOnChar ';' h.data)

/-- `serializeSessionCookie` from `route.ts`. -/
def serializeSessionCookie (env : Env) (value : String) : String :=
  let attributes := [
    SESSION_COOKIE_NAME ++ "=" ++ encodeURIComponent value,
    "Path=/",
    "Max-Age=" ++ toString SESSION_COOKIE_MAX_AGE,
    "HttpOnly",
    "SameSite=Lax"]
  let attributes :=
    if env.nodeEnvProduction then attributes ++ ["Secure"] else attributes
  joinWith "; " attributes

/-- The id `resolveUserId` generates when no cookie is present:
`crypto.randomUUID()` when that builtin is a function, otherwise
`Math.random().toString(36).slice(2)` (an opaque environment-supplied
string). -/
def generatedId (env : Env) : String :=
  if env.cryptoHasRandomUUID then randomUUID env.uuidSeed else env.mathRandomId

/-- `resolveUserId` from `route.ts`: the caller id together with the
`Set-Cookie` value to emit (`none` when an existing cookie was reused). -/
def resolveUserId (env : Env) (req : Req) : String × Option String :=
  let existing := getCookieValue req.cookieHeader SESSION_COOKIE_NAME
  match existing with
  | some v =>
    if v == "" then
      let g := generatedId env
      (g, some (serializeSessionCookie env g))
    else (v, none)
  | none =>
    let g := generatedId env
    (g, some (serializeSessionCookie env g))

/-- `buildJsonResponse` from `route.ts` (the `Content-Type` header is fixed;
only the optional `Set-Cookie` varies). The cookie string is appended only
when truthy, mirroring `if (sessionCookie)`. -/
def buildJsonResponse (payload : Json) (status : Nat) (sessionCookie : Option String) :
    HttpResponse :=
  let setCookie :=
    match sessionCookie with
    | some s => if s == "" then none else some s
    | none => none
  { status := status, body := payload, setCookie := setCookie }

/-- `upstreamResponse.json().catch(() => ({}))`: the parsed JSON body, or
the empty object when parsing failed. -/
def jsonOrEmpty (b : Option Json) : Json :=
  match b with
  | some j => j
  | none => Json.obj []

/-- `Response.ok`: status in the 2xx range. -/
def statusOk (s : Nat) : Bool :=
  200 ≤ s && s ≤ 299

/-- The effective workflow id:
`parsedBody?.workflow?.id ?? parsedBody?.workflowId ?? WORKFLOW_ID`. -/
def resolvedWorkflowId (env : Env) (parsedBody : Option Json) : Option Json :=
  jsCoalesce
    (jsCoalesce (jsField (jsField parsedBody "workflow") "id")
      (jsField parsedBody "workflowId"))
    ((env.workflowId).map Json.str)

/-- The upstream request payload `route.ts` stringifies:
`{ workflow: { id: resolvedWorkflowId }, user: userId }`. -/
def upstreamPayload (wf : Json) (userId : String) : Json :=
  Json.obj [("workflow", Json.obj [("id", wf)]), ("user", Json.str userId)]

/-- Result of handling one request: the response plus the list of upstream
request payloads actually sent. -/
structure PostOutcome where
  response : HttpResponse
  upstreamCalls : List Json

/-- JavaScript truthiness of an optional string (`if (!openaiApiKey)`…):
truthy when present and non-empty. -/
def jsStrTruthy (s : Option String) : Bool :=
  match s with
  | none => false
  | some v => !(v == "")

/-- The early `500` returned before cookie resolution when the
`OPENAI_API_KEY` environment variable is falsy (built with `new Response`,
so it never carries a `Set-Cookie` header). -/
def missingKeyOutcome : PostOutcome :=
  PostOutcome.mk
    (HttpResponse.mk 500
      (Json.obj [("error", Json.str "Missing OPENAI_API_KEY environment variable")]) none)
    []

/-- The success body `{ client_secret: … ?? null, expires_after: … ?? null }`. -/
def successBody (upstreamJson : Json) : Json :=
  Json.obj [("client_secret", jsOrNull (jsField (some upstreamJson) "client_secret")),
    ("expires_after", jsOrNull (jsField (some upstreamJson) "expires_after"))]

/-- The `POST` handler of `src/app/api/create-session/route.ts`.
The upstream `fetch` outcome is drawn from `env.upstream`; a rejected fetch
is the only exception source and lands in the `catch` branch. -/
def POSTr (env : Env) (req : Req) : PostOutcome :=
  if !jsStrTruthy env.openaiApiKey then missingKeyOutcome
  else
    let parsedBody := safeParseJson req.body
    let resolved := resolveUserId env req
    let userId := resolved.1
    let sessionCookie := resolved.2
    let wf := resolvedWorkflowId env parsedBody
    if jsFalsy wf then
      PostOutcome.mk
        (buildJsonResponse (Json.obj [("error", Json.str "Missing workflow id")])
          400 sessionCookie)
        []
    else
      let wfj := match wf with | some j => j | none => Json.null
      let payload := upstreamPayload wfj userId
      match env.upstream with
      | Except.error _ =>
        PostOutcome.mk
          (buildJsonResponse (Json.obj [("error", Json.str "Unexpected error")])
            500 sessionCookie)
          [payload]
      | Except.ok up =>
        let upstreamJson := jsonOrEmpty up.jsonBody
        if !statusOk up.status then
          PostOutcome.mk
            (buildJsonResponse (Json.obj [("error", upstreamJson)]) up.status sessionCookie)
            [payload]
        else
          PostOutcome.mk
            (buildJsonResponse (successBody upstreamJson) 200 sessionCookie)
            [payload]

/-! ## Historical broker variants -/

/-- `getUpstreamMessage` from `src/unnamed/part_000`: a non-empty top-level
string `message`, else a non-empty string `error.message`, else the raw
response text, else `"Upstream error"`. -/
def getUpstreamMessage (body : Json) (fallbackText : String) : String :=
  let topMsg := jsField (some body) "message"
  let errMsg := jsField (jsField (some body) "error") "message"
  match topMsg with
  | some (Json.str m) =>
    if !(m == "") then m
    else
      match errMsg with
      | some (Json.str em) =>
        if !(em == "") then em
        else if fallbackText == "" then "Upstream error" else fallbackText
      | _ => if fallbackText == "" then "Upstream error" else fallbackText
  | _ =>
    match errMsg with
    | some (Json.str em) =>
      if !(em == "") then em
      else if fallbackText == "" then "Upstream error" else fallbackText
    | _ => if fallbackText == "" then "Upstream error" else fallbackText

/-- `extractMessage` from `src/unnamed/part_002`: a top-level `message` of
string type (possibly empty), else the `error` field when truthy — taken
whole if a string, else its `message` member when that is a string —
else `""`. -/
def extractMessage (payload : Option Json) : String :=
  match payload with
  | none => ""
  | some p =>
    match jsField (some p) "message" with
    | some (Json.str m) => m
    | _ =>
      let err := jsField (some p) "error"
      if jsFalsy err then ""
      else
        match err with
        | some (Json.str s) => s
        | some e =>
          match jsField (some e) "message" with
          | some (Json.str m) => m
          | _ => ""
        | none => ""

/-- The episode-context fields `part_002` reads from the request body. -/
def episodeFields (parsedBody : Option Json) : Json × Json × Json :=
  (jsOrNull (jsField parsedBody "episodeCode"),
   jsOrNull (jsField parsedBody "title"),
   jsOrNull (jsField parsedBody "mp3"))

/-- The metadata object `{ episodeCode, title, mp3 }`, attached to a payload
only when `episodeCode || title || mp3` is truthy. -/
def metadataObj (ec ti mp : Json) : Json :=
  Json.obj [("episodeCode", ec), ("title", ti), ("mp3", mp)]

/-- Whether `episodeCode || title || mp3` is truthy. -/
def anyEpisodeField (ec ti mp : Json) : Bool :=
  !jsFalsy (some ec) || !jsFalsy (some ti) || !jsFalsy (some mp)

/-- First-attempt payload of `part_002`: metadata at top level
(`JSON.stringify` drops the field when the value is `undefined`). -/
def payloadTopLevel (wf : Json) (userId : String) (ec ti mp : Json) : Json :=
  Json.obj ([("workflow", Json.obj [("id", wf)]), ("user", Json.str userId)] ++
    (if anyEpisodeField ec ti mp then [("metadata", metadataObj ec ti mp)] else []))

/-- Second-attempt payload of `part_002`: metadata nested under
`session.metadata`. -/
def payloadSessionShape (wf : Json) (userId : String) (ec ti mp : Json) : Json :=
  Json.obj ([("workflow", Json.obj [("id", wf)]), ("user", Json.str userId)] ++
    (if anyEpisodeField ec ti mp then
      [("session", Json.obj [("metadata", metadataObj ec ti mp)])] else []))

/-- The retry trigger of `part_002`: first attempt not ok, status `400`, and
the extracted message contains both `"unknown parameter"` and `"metadata"`
case-insensitively. -/
def looksLikeUnknownMetadata (status : Nat) (upstreamJson : Option Json) : Bool :=
  let msg := extractMessage upstreamJson
  status == 400 &&
  strIncludes (jsLower msg) "unknown parameter" &&
  strIncludes (jsLower msg) "metadata"

/-- The `POST` handler of `src/unnamed/part_002` (the historical variant with
the one-shot shape fallback). `env.upstream` is the first attempt's outcome
and `env.upstream2` the second's. -/
def POSTv2 (env : Env) (req : Req) : PostOutcome :=
  if !jsStrTruthy env.openaiApiKey then missingKeyOutcome
  else
    let parsedBody := safeParseJson req.body
    let resolved := resolveUserId env req
    let userId := resolved.1
    let sessionCookie := resolved.2
    let wf := resolvedWorkflowId env parsedBody
    if jsFalsy wf then
      PostOutcome.mk
        (buildJsonResponse (Json.obj [("error", Json.str "Missing workflow id")])
          400 sessionCookie)
        []
    else
      let wfj := match wf with | some j => j | none => Json.null
      let ep := episodeFields parsedBody
      let payload1 := payloadTopLevel wfj userId ep.1 ep.2.1 ep.2.2
      match env.upstream with
      | Except.error _ =>
        PostOutcome.mk
          (buildJsonResponse (Json.obj [("error", Json.str "Unexpected error")])
            500 sessionCookie)
          [payload1]
      | Except.ok up1 =>
        let json1 := jsonOrEmpty up1.jsonBody
        if !statusOk up1.status && looksLikeUnknownMetadata up1.status (some json1) then
          let payload2 := payloadSessionShape wfj userId ep.1 ep.2.1 ep.2.2
          match env.upstream2 with
          | Except.error _ =>
            PostOutcome.mk
              (buildJsonResponse (Json.obj [("error", Json.str "Unexpected error")])
                500 sessionCookie)
              [payload1, payload2]
          | Except.ok up2 =>
            let json2 := jsonOrEmpty up2.jsonBody
            if !statusOk up2.status then
              PostOutcome.mk
                (buildJsonResponse (Json.obj [("error", json2)]) up2.status sessionCookie)
                [payload1, payload2]
            else
              PostOutcome.mk
                (buildJsonResponse (successBody json2) 200 sessionCookie)
                [payload1, payload2]
        else
          if !statusOk up1.status then
            PostOutcome.mk
              (buildJsonResponse (Json.obj [("error", json1)]) up1.status sessionCookie)
              [payload1]
          else
            PostOutcome.mk
              (buildJsonResponse (successBody json1) 200 sessionCookie)
              [payload1]

/-! ## Chat panel model (`src/components/ChatKitPanel.tsx`) -/

/-- The panel's error slots. -/
structure ErrorState where
  script : Option String
  session : Option String
  integration : Option String
  retryable : Bool

/-- `createInitialErrors`. -/
def createInitialErrors : ErrorState :=
  ErrorState.mk none none none false

/-- Script lifecycle status. -/
inductive ScriptStatus where
  | pending : ScriptStatus
  | ready : ScriptStatus
  | error : ScriptStatus

/-- Component-instance state relevant to the fact pipeline: the
`processedFacts` ref (a `Set<string>`, modelled as the list of its
elements, newest first), the error slots, and the widget remount key. -/
structure PanelState where
  processedFacts : List String
  errors : ErrorState
  isInitializingSession : Bool
  scriptStatus : ScriptStatus
  widgetInstanceKey : Nat

/-- A call the panel makes back into the host page. -/
inductive HostCall where
  | saveFact : String → String → HostCall
  | themeRequest : String → HostCall

/-- `invocation.params.k ?? ""` followed by `String(...)`. -/
def paramString (params : List (String × Json)) (k : String) : String :=
  match (params.find? (fun p => p.1 == k)).map (fun p => p.2) with
  | none => ""
  | some Json.null => ""
  | some v => jsToString v

/-- One pass of `text.replace(/\s+/g, " ")`: each maximal whitespace run
becomes a single space. `prevWs` records whether the previous character
belonged to a run already collapsed. -/
def collapseWsAux : Bool → List Char → List Char
  | _, [] => []
  | prevWs, c :: cs =>
    if isJsWs c then
      if prevWs then collapseWsAux true cs
      else ' ' :: collapseWsAux true cs
    else c :: collapseWsAux false cs

/-- `text.replace(/\s+/g, " ").trim()`. -/
def normalizeWs (s : String) : String :=
  String.mk (trimChars (collapseWsAux false s.data))

/-- Result of one `onClientTool` invocation: the updated `processedFacts`
set, the host calls issued, and the `success` flag of the returned object. -/
structure ToolOutcome where
  facts : List String
  calls : List HostCall
  success : Bool

/-- The `onClientTool` callback: `switch_theme` validates the scheme,
`record_fact` de-duplicates by `fact_id` and forwards the
whitespace-normalized `fact_text`; unknown tools fail. -/
def onClientTool (facts : List String) (name : String) (params : List (String × Json)) :
    ToolOutcome :=
  if name == "switch_theme" then
    match (params.find? (fun p => p.1 == "theme")).map (fun p => p.2) with
    | some (Json.str s) =>
      if s == "light" || s == "dark" then ToolOutcome.mk facts [HostCall.themeRequest s] true
      else ToolOutcome.mk facts [] false
    | _ => ToolOutcome.mk facts [] false
  else if name == "record_fact" then
    let id := paramString params "fact_id"
    let text := paramString params "fact_text"
    if id == "" || facts.contains id then ToolOutcome.mk facts [] true
    else ToolOutcome.mk (id :: facts) [HostCall.saveFact id (normalizeWs text)] true
  else ToolOutcome.mk facts [] false

/-- Events that touch the fact-de-duplication state during one widget
lifetime. -/
inductive PanelEvent where
  | clientTool : String → List (String × Json) → PanelEvent
  | threadChange : PanelEvent
  | resetChat : PanelEvent

/-- `handleResetChat`: clears `processedFacts`, restores the initial error
state, re-enters session initialization and remounts the widget. -/
def handleResetChat (scriptAvailable : Bool) (st : PanelState) : PanelState :=
  PanelState.mk []
    createInitialErrors
    true
    (if scriptAvailable then ScriptStatus.ready else ScriptStatus.pending)
    (st.widgetInstanceKey + 1)

/-- One event step: the next state plus the host calls issued. -/
def panelStep (st : PanelState) : PanelEvent → PanelState × List HostCall
  | PanelEvent.clientTool name params =>
    let o := onClientTool st.processedFacts name params
    (PanelState.mk o.facts st.errors st.isInitializingSession st.scriptStatus
      st.widgetInstanceKey, o.calls)
  | PanelEvent.threadChange =>
    (PanelState.mk [] st.errors st.isInitializingSession st.scriptStatus
      st.widgetInstanceKey, [])
  | PanelEvent.resetChat =>
    (handleResetChat true st, [])

/-- Run a sequence of events, collecting all host calls in order. -/
def panelRun (st : PanelState) : List PanelEvent → PanelState × List HostCall
  | [] => (st, [])
  | e :: es =>
    let r := panelStep st e
    let rest := panelRun r.1 es
    (rest.1, r.2 ++ rest.2)

/-- The fresh panel state. -/
def initialPanelState : PanelState :=
  PanelState.mk [] createInitialErrors true ScriptStatus.pending 0

/-- The fact ids emitted by a list of host calls. -/
def emittedFactIds (calls : List HostCall) : List String :=
  calls.filterMap (fun c => match c with
    | HostCall.saveFact id _ => some id
    | HostCall.themeRequest _ => none)

/-- Whether an event list contains a de-duplication clear
(thread change or reset). -/
def hasClear : List PanelEvent → Bool
  | [] => false
  | PanelEvent.threadChange :: _ => true
  | PanelEvent.resetChat :: _ => true
  | _ :: es => hasClear es

/-! ## Theorems -/

/-- A string's JS falsiness check, lifted: non-empty strings are truthy. -/
theorem jsFalsy_str_of_ne (w : String) (h : w ≠ "") : jsFalsy (some (Json.str w)) = false := by
  simp [jsFalsy]
  exact h

/-- Concrete environment: key configured, no default workflow id. -/
def envA : Env :=
  Env.mk (some "sk-test") none false true 0 "fallbackid"
    (Except.ok (UpstreamHttp.mk 200 (some (Json.obj []))))
    (Except.ok (UpstreamHttp.mk 200 (some (Json.obj []))))

/-- Concrete request: no cookie, empty body. -/
def reqA : Req := Req.mk none BodyInput.empty

/-- **C2.** With the API credential configured: a request whose body yields a
nullish `workflow.id` and a nullish `workflowId`, when no default workflow id
is configured, is answered HTTP 400 with body `Missing workflow id` and no
upstream call is made; and the effective workflow id resolves with precedence
`body.workflow.id`, then `body.workflowId`, then the configured default. -/
theorem C2_missing_workflow_id (env : Env) (req : Req)
    (hkey : jsStrTruthy env.openaiApiKey = true) :
    (jsNullish (jsField (jsField (safeParseJson req.body) "workflow") "id") = true →
      jsNullish (jsField (safeParseJson req.body) "workflowId") = true →
      env.workflowId = none →
      (POSTr env req).response.status = 400 ∧
      (POSTr env req).response.body = Json.obj [("error", Json.str "Missing workflow id")] ∧
      (POSTr env req).upstreamCalls = []) ∧
    (jsNullish (jsField (jsField (safeParseJson req.body) "workflow") "id") = false →
      resolvedWorkflowId env (safeParseJson req.body) =
        jsField (jsField (safeParseJson req.body) "workflow") "id") ∧
    (jsNullish (jsField (jsField (safeParseJson req.body) "workflow") "id") = true →
      jsNullish (jsField (safeParseJson req.body) "workflowId") = false →
      resolvedWorkflowId env (safeParseJson req.body) =
        jsField (safeParseJson req.body) "workflowId") ∧
    (jsNullish (jsField (jsField (safeParseJson req.body) "workflow") "id") = true →
      jsNullish (jsField (safeParseJson req.body) "workflowId") = true →
      resolvedWorkflowId env (safeParseJson req.body) = (env.workflowId).map Json.str) := by
  refine ⟨?_, ?_, ?_, ?_⟩
  · intro h1 h2 h3
    have hr : resolvedWorkflowId env (safeParseJson req.body) = none := by
      simp [resolvedWorkflowId, jsCoalesce, h1, h2, h3]
    simp [POSTr, hkey, hr, jsFalsy, buildJsonResponse]
  · intro h1
    simp [resolvedWorkflowId, jsCoalesce, h1]
  · intro h1 h2
    simp [resolvedWorkflowId, jsCoalesce, h1, h2]
  · intro h1 h2
    simp [resolvedWorkflowId, jsCoalesce, h1, h2]

/-- **C2 witness.** At a concrete configured environment and an empty body. -/
theorem C2_missing_workflow_id_witness :
    jsStrTruthy envA.openaiApiKey = true ∧
    (POSTr envA reqA).response.status = 400 ∧
    (POSTr envA reqA).response.body = Json.obj [("error", Json.str "Missing workflow id")] ∧
    (POSTr envA reqA).upstreamCalls = [] :=
  ⟨rfl, (C2_missing_workflow_id envA reqA rfl).1 rfl rfl rfl⟩

/-- **C7.** A malformed (non-JSON) request body is handled exactly like an
empty one: the whole outcome coincides, the workflow id falls back to the
configured default, and (default configured and non-empty) handling proceeds
to the single upstream call. -/
theorem C7_malformed_body (env : Env) (ch : Option String) (t w : String)
    (hkey : jsStrTruthy env.openaiApiKey = true)
    (hwf : env.workflowId = some w) (hw : w ≠ "") :
    POSTr env (Req.mk ch (BodyInput.malformed t)) = POSTr env (Req.mk ch BodyInput.empty) ∧
    resolvedWorkflowId env (safeParseJson (BodyInput.malformed t)) = some (Json.str w) ∧
    (POSTr env (Req.mk ch (BodyInput.malformed t))).upstreamCalls =
      [upstreamPayload (Json.str w)
        (resolveUserId env (Req.mk ch (BodyInput.malformed t))).1] := by
  have hr : resolvedWorkflowId env (safeParseJson (BodyInput.malformed t)) =
      some (Json.str w) := by
    simp [resolvedWorkflowId, safeParseJson, jsField, jsCoalesce, jsNullish, hwf]
  refine ⟨rfl, hr, ?_⟩
  rcases hup : env.upstream with e | up
  · simp [POSTr, hkey, hr, jsFalsy_str_of_ne w hw, hup]
  · cases hok : statusOk up.status <;>
      simp [POSTr, hkey, hr, jsFalsy_str_of_ne w hw, hup, hok]

/-- **C7 witness.** A concrete malformed body against a configured default. -/
theorem C7_malformed_body_witness :
    POSTr (Env.mk (some "sk-test") (some "wf_1") false true 0 "fb"
        (Except.ok (UpstreamHttp.mk 200 (some (Json.obj []))))
        (Except.ok (UpstreamHttp.mk 200 (some (Json.obj [])))))
      (Req.mk none (BodyInput.malformed "not json")) =
    POSTr (Env.mk (some "sk-test") (some "wf_1") false true 0 "fb"
        (Except.ok (UpstreamHttp.mk 200 (some (Json.obj []))))
        (Except.ok (UpstreamHttp.mk 200 (some (Json.obj [])))))
      (Req.mk none BodyInput.empty) :=
  (C7_malformed_body
    (Env.mk (some "sk-test") (some "wf_1") false true 0 "fb"
      (Except.ok (UpstreamHttp.mk 200 (some (Json.obj []))))
      (Except.ok (UpstreamHttp.mk 200 (some (Json.obj [])))))
    none "not json" "wf_1" rfl rfl (by decide)).1

/-- **C10.** A `record_fact` invocation whose `fact_id` is absent or
stringifies to the empty string returns success, invokes no host callback and
leaves the de-duplication set unchanged. -/
theorem C10_empty_fact_id (facts : List String) (params : List (String × Json))
    (h : paramString params "fact_id" = "") :
    onClientTool facts "record_fact" params = ToolOutcome.mk facts [] true := by
  simp [onClientTool, h]

/-- **C10 witness.** Absent `fact_id` on a non-empty de-duplication set. -/
theorem C10_empty_fact_id_witness :
    paramString [("fact_text", Json.str "hi")] "fact_id" = "" ∧
    onClientTool ["x"] "record_fact" [("fact_text", Json.str "hi")] =
      ToolOutcome.mk ["x"] [] true :=
  ⟨rfl, C10_empty_fact_id ["x"] [("fact_text", Json.str "hi")] rfl⟩

/-- The `user` field of the upstream payload is the resolved caller id. -/
theorem upstreamPayload_user (wfj : Json) (u : String) :
    jsField (some (upstreamPayload wfj u)) "user" = some (Json.str u) := rfl

/-- **C4.** A request carrying a `chatkit_session_id` cookie with a non-empty
value gets a response with no `Set-Cookie` header, and every upstream call
made for it carries that cookie value as its `user` field. -/
theorem C4_existing_cookie (env : Env) (req : Req) (v : String)
    (hv : getCookieValue req.cookieHeader SESSION_COOKIE_NAME = some v)
    (hne : v ≠ "") :
    (POSTr env req).response.setCookie = none ∧
    ∀ p ∈ (POSTr env req).upstreamCalls, jsField (some p) "user" = some (Json.str v) := by
  have hres : resolveUserId env req = (v, none) := by
    simp [resolveUserId, hv, beq_eq_false_iff_ne.mpr hne]
  cases hkey : jsStrTruthy env.openaiApiKey with
  | false =>
    refine ⟨?_, ?_⟩ <;> simp [POSTr, hkey, missingKeyOutcome]
  | true =>
    cases hwf : jsFalsy (resolvedWorkflowId env (safeParseJson req.body)) with
    | true =>
      refine ⟨?_, ?_⟩ <;> simp [POSTr, hkey, hres, hwf, buildJsonResponse]
    | false =>
      rcases hup : env.upstream with e | up
      · refine ⟨?_, ?_⟩ <;>
          simp [POSTr, hkey, hres, hwf, hup, buildJsonResponse, upstreamPayload_user]
      · cases hok : statusOk up.status <;>
          · refine ⟨?_, ?_⟩ <;>
              simp [POSTr, hkey, hres, hwf, hup, hok, buildJsonResponse, upstreamPayload_user]

/-- Concrete request carrying an existing session cookie. -/
def reqB : Req := Req.mk (some "chatkit_session_id=user-123") BodyInput.empty

/-- Concrete environment with a configured workflow id and a 200 upstream. -/
def envB : Env :=
  Env.mk (some "sk-test") (some "wf_1") false true 0 "fb"
    (Except.ok (UpstreamHttp.mk 200 (some (Json.obj []))))
    (Except.ok (UpstreamHttp.mk 200 (some (Json.obj []))))

/-- **C4 witness.** A concrete request with an existing cookie value: no
`Set-Cookie` is emitted and the upstream call carries that value as `user`. -/
theorem C4_existing_cookie_witness :
    (POSTr envB reqB).response.setCookie = none ∧
    ∀ p ∈ (POSTr envB reqB).upstreamCalls,
      jsField (some p) "user" = some (Json.str "user-123") :=
  C4_existing_cookie envB reqB "user-123" rfl (by decide)

/-- **C5.** With the workflow id resolved and the upstream call returning
HTTP 200, the endpoint returns HTTP 200 whose body maps `client_secret` and
`expires_after` through `?? null`; on the documented concrete body the
mapping is the identity, and on an empty upstream body both fields are
`null`. -/
theorem C5_success_mapping (env : Env) (req : Req) (w : String) (ubody : Json)
    (hkey : jsStrTruthy env.openaiApiKey = true)
    (hwfres : resolvedWorkflowId env (safeParseJson req.body) = some (Json.str w))
    (hw : w ≠ "")
    (hup : env.upstream = Except.ok (UpstreamHttp.mk 200 (some ubody))) :
    (POSTr env req).response.status = 200 ∧
    (POSTr env req).response.body = successBody ubody ∧
    successBody (Json.obj [("client_secret", Json.str "sk_abc"), ("expires_after", Json.num 123)]) =
      Json.obj [("client_secret", Json.str "sk_abc"), ("expires_after", Json.num 123)] ∧
    successBody (Json.obj []) =
      Json.obj [("client_secret", Json.null), ("expires_after", Json.null)] := by
  refine ⟨?_, ?_, rfl, rfl⟩ <;>
    simp [POSTr, hkey, hwfres, jsFalsy_str_of_ne w hw, hup, statusOk, buildJsonResponse,
      jsonOrEmpty]

/-- Concrete environment whose upstream answers 200 with the documented body. -/
def envC5 : Env :=
  Env.mk (some "sk-test") (some "wf_1") false true 0 "fb"
    (Except.ok (UpstreamHttp.mk 200
      (some (Json.obj [("client_secret", Json.str "sk_abc"), ("expires_after", Json.num 123)]))))
    (Except.error ())

/-- **C5 witness.** The documented upstream body is passed through verbatim. -/
theorem C5_success_mapping_witness :
    (POSTr envC5 reqA).response.status = 200 ∧
    (POSTr envC5 reqA).response.body =
      Json.obj [("client_secret", Json.str "sk_abc"), ("expires_after", Json.num 123)] := by
  have h := C5_success_mapping envC5 reqA "wf_1"
    (Json.obj [("client_secret", Json.str "sk_abc"), ("expires_after", Json.num 123)])
    rfl rfl (by decide) rfl
  exact ⟨h.1, h.2.1.trans h.2.2.1⟩

/-- Concrete environment whose upstream answers 404 with the documented
error envelope. -/
def envC1 : Env :=
  Env.mk (some "sk-test") (some "wf_1") false true 0 "fb"
    (Except.ok (UpstreamHttp.mk 404
      (some (Json.obj [("error", Json.obj [("message", Json.str "boom")])]))))
    (Except.error ())

/-- **C1 counterexample.** On upstream 404 with body
`error.message = "boom"`, the current endpoint's `error` field is the whole
upstream JSON object, not the extracted string `"boom"`. -/
theorem C1_counterexample :
    (POSTr envC1 reqA).response.status = 404 ∧
    jsField (some (POSTr envC1 reqA).response.body) "error" =
      some (Json.obj [("error", Json.obj [("message", Json.str "boom")])]) ∧
    jsField (some (POSTr envC1 reqA).response.body) "error" ≠ some (Json.str "boom") := by
  refine ⟨rfl, rfl, ?_⟩
  intro h
  exact Json.noConfusion (Option.some.inj h)

/-- **C1 (amended).** On a non-2xx upstream response the current endpoint
forwards the upstream status and wraps the whole upstream JSON as the `error`
field; the historical `getUpstreamMessage` helper extracts the message by
checking, in order, a non-empty top-level `message` string, then a non-empty
`error.message` string, then the raw response text (defaulting to
`"Upstream error"`), and yields `"boom"` on the documented body. -/
theorem C1_upstream_error_forwarding (env : Env) (req : Req) (w : String)
    (st : Nat) (ubody : Json)
    (hkey : jsStrTruthy env.openaiApiKey = true)
    (hwfres : resolvedWorkflowId env (safeParseJson req.body) = some (Json.str w))
    (hw : w ≠ "")
    (hup : env.upstream = Except.ok (UpstreamHttp.mk st (some ubody)))
    (hnotok : statusOk st = false) :
    (POSTr env req).response.status = st ∧
    (POSTr env req).response.body = Json.obj [("error", ubody)] ∧
    (∀ t, getUpstreamMessage
      (Json.obj [("error", Json.obj [("message", Json.str "boom")])]) t = "boom") ∧
    (∀ (m : String) (fs : List (String × Json)) (t : String), m ≠ "" →
      getUpstreamMessage (Json.obj (("message", Json.str m) :: fs)) t = m) ∧
    (∀ (em : String) (gs : List (String × Json)) (t : String), em ≠ "" →
      getUpstreamMessage (Json.obj [("error", Json.obj (("message", Json.str em) :: gs))]) t
        = em) ∧
    (∀ t, t ≠ "" → getUpstreamMessage (Json.obj []) t = t) ∧
    getUpstreamMessage (Json.obj []) "" = "Upstream error" := by
  refine ⟨?_, ?_, fun t => rfl, ?_, ?_, ?_, rfl⟩
  · simp [POSTr, hkey, hwfres, jsFalsy_str_of_ne w hw, hup, hnotok, buildJsonResponse,
      jsonOrEmpty]
  · simp [POSTr, hkey, hwfres, jsFalsy_str_of_ne w hw, hup, hnotok, buildJsonResponse,
      jsonOrEmpty]
  · intro m fs t hm
    have h1 : jsField (some (Json.obj (("message", Json.str m) :: fs))) "message" =
        some (Json.str m) := rfl
    simp [getUpstreamMessage, h1, beq_eq_false_iff_ne.mpr hm]
  · intro em gs t hem
    have h1 : jsField (some (Json.obj [("error",
        Json.obj (("message", Json.str em) :: gs))])) "message" = none := rfl
    have h2 : jsField (jsField (some (Json.obj [("error",
        Json.obj (("message", Json.str em) :: gs))])) "error") "message" =
        some (Json.str em) := rfl
    simp [getUpstreamMessage, h1, h2, beq_eq_false_iff_ne.mpr hem]
  · intro t ht
    simp [getUpstreamMessage, jsField, beq_eq_false_iff_ne.mpr ht]

/-- **C1 witness.** The amended behaviour at the concrete 404 envelope. -/
theorem C1_upstream_error_forwarding_witness :
    (POSTr envC1 reqA).response.status = 404 ∧
    (POSTr envC1 reqA).response.body =
      Json.obj [("error", Json.obj [("error", Json.obj [("message", Json.str "boom")])])] ∧
    getUpstreamMessage (Json.obj [("error", Json.obj [("message", Json.str "boom")])]) "raw"
      = "boom" := by
  have h := C1_upstream_error_forwarding envC1 reqA "wf_1" 404
    (Json.obj [("error", Json.obj [("message", Json.str "boom")])])
    rfl rfl (by decide) rfl rfl
  exact ⟨h.1, h.2.1, h.2.2.1 "raw"⟩

/-- A serialized session cookie is never the empty string, so
`buildJsonResponse` always appends it. -/
theorem serializeSessionCookie_ne_empty (env : Env) (v : String) :
    (serializeSessionCookie env v == "") = false := by
  cases h : env.nodeEnvProduction <;> simp only [serializeSessionCookie, h] <;> rfl

/-- **C9.** For a request without the session cookie: once past the
credential check, every response — 400 missing-workflow, forwarded upstream
error, catch-all 500 and success alike — carries the same `Set-Cookie`
header, serializing the freshly generated caller id; only the early 500 for
a missing `OPENAI_API_KEY` credential carries none, since it is built before
cookie resolution. -/
theorem C9_cookie_uniformity (env : Env) (req : Req)
    (hno : getCookieValue req.cookieHeader SESSION_COOKIE_NAME = none) :
    (jsStrTruthy env.openaiApiKey = true →
      (POSTr env req).response.setCookie =
        some (serializeSessionCookie env (generatedId env))) ∧
    (jsStrTruthy env.openaiApiKey = false →
      (POSTr env req).response.setCookie = none) := by
  have hres : resolveUserId env req =
      (generatedId env, some (serializeSessionCookie env (generatedId env))) := by
    simp [resolveUserId, hno]
  constructor
  · intro hkey
    cases hwf : jsFalsy (resolvedWorkflowId env (safeParseJson req.body)) with
    | true =>
      simp [POSTr, hkey, hres, hwf, buildJsonResponse, serializeSessionCookie_ne_empty]
    | false =>
      rcases hup : env.upstream with e | up
      · simp [POSTr, hkey, hres, hwf, hup, buildJsonResponse,
          serializeSessionCookie_ne_empty]
      · cases hok : statusOk up.status <;>
          simp [POSTr, hkey, hres, hwf, hup, hok, buildJsonResponse,
            serializeSessionCookie_ne_empty]
  · intro hkey
    simp [POSTr, hkey, missingKeyOutcome]

/-- **C9 witness.** Concrete cookie-less request with the credential set
(the 400 missing-workflow branch) and one without the credential. -/
theorem C9_cookie_uniformity_witness :
    (POSTr envA reqA).response.setCookie =
      some (serializeSessionCookie envA (generatedId envA)) ∧
    (POSTr (Env.mk none none false true 0 "fb" (Except.error ()) (Except.error ()))
      reqA).response.setCookie = none :=
  ⟨(C9_cookie_uniformity envA reqA rfl).1 rfl,
   (C9_cookie_uniformity
     (Env.mk none none false true 0 "fb" (Except.error ()) (Except.error ())) reqA rfl).2 rfl⟩

/-- The retry trigger of the historical variant, characterised: first-attempt
status exactly 400 and the lower-cased extracted message containing both
`"unknown parameter"` and `"metadata"`. -/
theorem retry_condition_iff (s : Nat) (b : Option Json) :
    (!statusOk s && looksLikeUnknownMetadata s b) = true ↔
      (s = 400 ∧
       strIncludes (jsLower (extractMessage b)) "unknown parameter" = true ∧
       strIncludes (jsLower (extractMessage b)) "metadata" = true) := by
  simp only [Bool.and_eq_true, Bool.not_eq_true', looksLikeUnknownMetadata, statusOk,
    beq_iff_eq]
  constructor
  · rintro ⟨h1, ⟨h2, h3⟩, h4⟩
    exact ⟨h2, h3, h4⟩
  · rintro ⟨h2, h3, h4⟩
    refine ⟨?_, ⟨h2, h3⟩, h4⟩
    subst h2
    decide

/-- **C6.** In the historical retry variant, a request that reaches the
upstream stage makes at least one and at most two upstream calls, and makes
exactly two precisely when the first attempt came back with HTTP 400 and an
extracted message containing both `"unknown parameter"` and `"metadata"`
case-insensitively; in every other first-attempt outcome no second call
occurs. -/
theorem C6_at_most_two_calls (env : Env) (req : Req) (w : String)
    (hkey : jsStrTruthy env.openaiApiKey = true)
    (hwfres : resolvedWorkflowId env (safeParseJson req.body) = some (Json.str w))
    (hw : w ≠ "") :
    1 ≤ (POSTv2 env req).upstreamCalls.length ∧
    (POSTv2 env req).upstreamCalls.length ≤ 2 ∧
    ((POSTv2 env req).upstreamCalls.length = 2 ↔
      ∃ up1, env.upstream = Except.ok up1 ∧ up1.status = 400 ∧
        strIncludes (jsLower (extractMessage (some (jsonOrEmpty up1.jsonBody))))
          "unknown parameter" = true ∧
        strIncludes (jsLower (extractMessage (some (jsonOrEmpty up1.jsonBody))))
          "metadata" = true) := by
  rcases hup : env.upstream with e | up1
  · have hlen : (POSTv2 env req).upstreamCalls.length = 1 := by
      simp [POSTv2, hkey, hwfres, jsFalsy_str_of_ne w hw, hup]
    refine ⟨by omega, by omega, ?_⟩
    constructor
    · intro h2
      omega
    · rintro ⟨up1, h, -⟩
      exact Except.noConfusion h
  · cases hc : (!statusOk up1.status &&
        looksLikeUnknownMetadata up1.status (some (jsonOrEmpty up1.jsonBody))) with
    | true =>
      have hlen : (POSTv2 env req).upstreamCalls.length = 2 := by
        rcases hup2 : env.upstream2 with e2 | up2
        · simp [POSTv2, hkey, hwfres, jsFalsy_str_of_ne w hw, hup, hc, hup2]
        · cases hok2 : statusOk up2.status <;>
            simp [POSTv2, hkey, hwfres, jsFalsy_str_of_ne w hw, hup, hc, hup2, hok2]
      refine ⟨by omega, by omega, ?_⟩
      have hfacts := (retry_condition_iff up1.status (some (jsonOrEmpty up1.jsonBody))).mp hc
      exact ⟨fun _ => ⟨up1, rfl, hfacts⟩, fun _ => hlen⟩
    | false =>
      have hlen : (POSTv2 env req).upstreamCalls.length = 1 := by
        cases hok : statusOk up1.status with
        | true =>
          simp [POSTv2, hkey, hwfres, jsFalsy_str_of_ne w hw, hup, hok]
        | false =>
          have hlk : looksLikeUnknownMetadata up1.status
              (some (jsonOrEmpty up1.jsonBody)) = false := by
            rw [hok] at hc
            simpa using hc
          simp [POSTv2, hkey, hwfres, jsFalsy_str_of_ne w hw, hup, hok, hlk]
      refine ⟨by omega, by omega, ?_⟩
      constructor
      · intro h2
        omega
      · rintro ⟨up1x, h, hfacts⟩
        have hx : up1x = up1 := (Except.ok.inj h).symm
        subst hx
        have : (!statusOk up1x.status &&
            looksLikeUnknownMetadata up1x.status (some (jsonOrEmpty up1x.jsonBody))) = true :=
          (retry_condition_iff up1x.status (some (jsonOrEmpty up1x.jsonBody))).mpr hfacts
        rw [hc] at this
        exact Bool.noConfusion this

/-- Concrete environment for the retry variant: first attempt 400 with the
`unknown parameter: metadata` message, second attempt succeeding. -/
def envC6 : Env :=
  Env.mk (some "sk-test") (some "wf_1") false true 0 "fb"
    (Except.ok (UpstreamHttp.mk 400
      (some (Json.obj [("error",
        Json.obj [("message", Json.str "Unknown parameter: metadata.")])]))))
    (Except.ok (UpstreamHttp.mk 200 (some (Json.obj [("client_secret", Json.str "s")]))))

/-- **C6 witness.** The concrete retry scenario makes exactly two calls. -/
theorem C6_at_most_two_calls_witness :
    (POSTv2 envC6 reqA).upstreamCalls.length ≤ 2 ∧
    (POSTv2 envC6 reqA).upstreamCalls.length = 2 := by
  have h := C6_at_most_two_calls envC6 reqA "wf_1" rfl rfl (by decide)
  refine ⟨h.2.1, h.2.2.mpr ?_⟩
  exact ⟨UpstreamHttp.mk 400
    (some (Json.obj [("error",
      Json.obj [("message", Json.str "Unknown parameter: metadata.")])])),
    rfl, rfl, by decide, by decide⟩

/-- `toHexList` always produces exactly `d` characters. -/
theorem toHexList_length (d : Nat) : ∀ n, (toHexList d n).length = d := by
  induction d with
  | zero => intro n; rfl
  | succ d ih => intro n; simp [toHexList, ih]

/-- Every character `toHexList` produces is some `hexChar m` with `m < 16`. -/
theorem mem_toHexList (d n : Nat) (c : Char) (h : c ∈ toHexList d n) :
    ∃ m, m < 16 ∧ c = hexChar m := by
  induction d generalizing n with
  | zero => simp [toHexList] at h
  | succ d ih =>
    simp only [toHexList] at h
    rcases List.mem_append.mp h with h1 | h2
    · exact ih _ h1
    · refine ⟨n % 16, Nat.mod_lt _ (by omega), ?_⟩
      simpa using h2

/-- Lower-case hex digits are hex digits. -/
theorem isHexDigit_hexChar (m : Nat) (h : m < 16) : isHexDigit (hexChar m) = true := by
  interval_cases m <;> rfl

/-- Lower-case hex digits are URI-unreserved. -/
theorem isUriUnreserved_hexChar (m : Nat) (h : m < 16) :
    isUriUnreserved (hexChar m) = true := by
  interval_cases m <;> rfl

/-- Members of `toHexList` outputs are hex digits. -/
theorem hex_of_mem_toHexList (d n : Nat) (c : Char) (h : c ∈ toHexList d n) :
    isHexDigit c = true := by
  obtain ⟨m, hm, rfl⟩ := mem_toHexList d n c h
  exact isHexDigit_hexChar m hm

/-- Members of `toHexList` outputs are URI-unreserved. -/
theorem unreserved_of_mem_toHexList (d n : Nat) (c : Char) (h : c ∈ toHexList d n) :
    isUriUnreserved c = true := by
  obtain ⟨m, hm, rfl⟩ := mem_toHexList d n c h
  exact isUriUnreserved_hexChar m hm

/-- A list in 8-4-4-4-12 hyphen-separated hex shape passes `isValidUUID`. -/
theorem uuid_shape_check (A B C D E : List Char)
    (hA : A.length = 8) (hB : B.length = 4) (hC : C.length = 4)
    (hD : D.length = 4) (hE : E.length = 12)
    (ha : ∀ c ∈ A, isHexDigit c = true) (hb : ∀ c ∈ B, isHexDigit c = true)
    (hc : ∀ c ∈ C, isHexDigit c = true) (hd : ∀ c ∈ D, isHexDigit c = true)
    (he : ∀ c ∈ E, isHexDigit c = true) :
    isValidUUID (String.mk
      (A ++ ('-' :: (B ++ ('-' :: (C ++ ('-' :: (D ++ ('-' :: E))))))))) = true := by
  have e8 : (A ++ ('-' :: (B ++ ('-' :: (C ++ ('-' :: (D ++ ('-' :: E)))))))).drop 8 =
      '-' :: (B ++ ('-' :: (C ++ ('-' :: (D ++ ('-' :: E)))))) := List.drop_left' hA
  have t8 : (A ++ ('-' :: (B ++ ('-' :: (C ++ ('-' :: (D ++ ('-' :: E)))))))).take 8 = A :=
    List.take_left' hA
  have e9 : (A ++ ('-' :: (B ++ ('-' :: (C ++ ('-' :: (D ++ ('-' :: E)))))))).drop 9 =
      B ++ ('-' :: (C ++ ('-' :: (D ++ ('-' :: E))))) := by
    rw [show (9 : Nat) = 8 + 1 by rfl, ← List.drop_drop, e8]
    rfl
  have e13 : (A ++ ('-' :: (B ++ ('-' :: (C ++ ('-' :: (D ++ ('-' :: E)))))))).drop 13 =
      '-' :: (C ++ ('-' :: (D ++ ('-' :: E)))) := by
    rw [show (13 : Nat) = 9 + 4 by rfl, ← List.drop_drop, e9]
    exact List.drop_left' hB
  have e14 : (A ++ ('-' :: (B ++ ('-' :: (C ++ ('-' :: (D ++ ('-' :: E)))))))).drop 14 =
      C ++ ('-' :: (D ++ ('-' :: E))) := by
    rw [show (14 : Nat) = 13 + 1 by rfl, ← List.drop_drop, e13]
    rfl
  have e18 : (A ++ ('-' :: (B ++ ('-' :: (C ++ ('-' :: (D ++ ('-' :: E)))))))).drop 18 =
      '-' :: (D ++ ('-' :: E)) := by
    rw [show (18 : Nat) = 14 + 4 by rfl, ← List.drop_drop, e14]
    exact List.drop_left' hC
  have e19 : (A ++ ('-' :: (B ++ ('-' :: (C ++ ('-' :: (D ++ ('-' :: E)))))))).drop 19 =
      D ++ ('-' :: E) := by
    rw [show (19 : Nat) = 18 + 1 by rfl, ← List.drop_drop, e18]
    rfl
  have e23 : (A ++ ('-' :: (B ++ ('-' :: (C ++ ('-' :: (D ++ ('-' :: E)))))))).drop 23 =
      '-' :: E := by
    rw [show (23 : Nat) = 19 + 4 by rfl, ← List.drop_drop, e19]
    exact List.drop_left' hD
  have e24 : (A ++ ('-' :: (B ++ ('-' :: (C ++ ('-' :: (D ++ ('-' :: E)))))))).drop 24 =
      E := by
    rw [show (24 : Nat) = 23 + 1 by rfl, ← List.drop_drop, e23]
    rfl
  have hlen : (A ++ ('-' :: (B ++ ('-' :: (C ++ ('-' :: (D ++ ('-' :: E)))))))).length = 36 := by
    simp [List.length_append, hA, hB, hC, hD, hE]
  simp only [isValidUUID]
  rw [t8, e8, e9, e13, e14, e18, e19, e23, e24, hlen]
  have t9 : (B ++ ('-' :: (C ++ ('-' :: (D ++ ('-' :: E)))))).take 4 = B :=
    List.take_left' hB
  have t14 : (C ++ ('-' :: (D ++ ('-' :: E)))).take 4 = C := List.take_left' hC
  have t19 : (D ++ ('-' :: E)).take 4 = D := List.take_left' hD
  rw [t9, t14, t19]
  simp only [List.all_eq_true, List.head?_cons, beq_self_eq_true, Bool.and_eq_true,
    beq_iff_eq, and_true, true_and]
  exact ⟨⟨⟨⟨ha, hb⟩, hc⟩, hd⟩, he⟩

/-- All characters of a formatted `randomUUID` value. -/
theorem isValidUUID_randomUUID (r : Nat) : isValidUUID (randomUUID r) = true := by
  have hshape : randomUUID r = String.mk
      (toHexList 8 r ++ ('-' :: (toHexList 4 (r / 16 ^ 8) ++ ('-' ::
        (toHexList 4 (16384 + (r / 16 ^ 12) % 4096) ++ ('-' ::
          (toHexList 4 (32768 + (r / 16 ^ 15) % 16384) ++ ('-' ::
            toHexList 12 (r / 16 ^ 19))))))))) := by
    simp [randomUUID, List.append_assoc]
  rw [hshape]
  exact uuid_shape_check _ _ _ _ _
    (toHexList_length 8 r) (toHexList_length 4 _) (toHexList_length 4 _)
    (toHexList_length 4 _) (toHexList_length 12 _)
    (fun c hc => hex_of_mem_toHexList _ _ c hc)
    (fun c hc => hex_of_mem_toHexList _ _ c hc)
    (fun c hc => hex_of_mem_toHexList _ _ c hc)
    (fun c hc => hex_of_mem_toHexList _ _ c hc)
    (fun c hc => hex_of_mem_toHexList _ _ c hc)

/-- The `encodeURIComponent` fold is the identity on unreserved characters. -/
theorem encode_fold_id (l : List Char) (h : ∀ c ∈ l, isUriUnreserved c = true) :
    l.foldr (fun c acc =>
      (if isUriUnreserved c then [c]
       else (utf8Bytes c).foldr (fun b a => percentEncodeByte b ++ a) []) ++ acc) [] = l := by
  induction l with
  | nil => rfl
  | cons c t ih =>
    have hc : isUriUnreserved c = true := h c (List.mem_cons_self _ _)
    simp [hc, ih (fun x hx => h x (List.mem_cons_of_mem _ hx))]

/-- `encodeURIComponent` fixes strings made of unreserved characters. -/
theorem encodeURIComponent_of_unreserved (s : String)
    (h : ∀ c ∈ s.data, isUriUnreserved c = true) : encodeURIComponent s = s := by
  cases s with
  | mk l =>
    show String.mk _ = String.mk l
    rw [encode_fold_id l h]

/-- Every character of a formatted UUID is unreserved (hex digits and
hyphens). -/
theorem randomUUID_unreserved (r : Nat) :
    ∀ c ∈ (randomUUID r).data, isUriUnreserved c = true := by
  intro c hc
  have hc2 : c ∈ toHexList 8 r ++ '-' :: (toHexList 4 (r / 16 ^ 8) ++ '-' ::
      (toHexList 4 (16384 + (r / 16 ^ 12) % 4096) ++ '-' ::
        (toHexList 4 (32768 + (r / 16 ^ 15) % 16384) ++ '-' ::
          toHexList 12 (r / 16 ^ 19)))) := by
    simpa [randomUUID, List.append_assoc] using hc
  simp only [List.mem_append, List.mem_cons] at hc2
  rcases hc2 with h | rfl | h | rfl | h | rfl | h | rfl | h
  · exact unreserved_of_mem_toHexList _ _ c h
  · rfl
  · exact unreserved_of_mem_toHexList _ _ c h
  · rfl
  · exact unreserved_of_mem_toHexList _ _ c h
  · rfl
  · exact unreserved_of_mem_toHexList _ _ c h
  · rfl
  · exact unreserved_of_mem_toHexList _ _ c h

/-- The serialized cookie, written out: name, percent-encoded value, and the
exact attribute tail, with `Secure` appended exactly in production. -/
theorem serializeSessionCookie_explicit (env : Env) (u : String)
    (henc : encodeURIComponent u = u) :
    serializeSessionCookie env u =
      "chatkit_session_id=" ++ u ++
      "; Path=/; Max-Age=2592000; HttpOnly; SameSite=Lax" ++
      (if env.nodeEnvProduction then "; Secure" else "") := by
  cases hp : env.nodeEnvProduction <;>
    · simp only [serializeSessionCookie, hp, henc, Bool.false_eq_true, if_false, if_true]
      apply String.ext
      simp only [joinWith, String.data_append, List.append_assoc, List.append_nil,
        List.cons_append, List.nil_append]
      rfl

/-- Any response produced after cookie resolution for a cookie-less request
carries the serialized fresh cookie, whatever the outcome branch. -/
theorem POSTr_setCookie_fresh (env : Env) (req : Req)
    (hno : getCookieValue req.cookieHeader SESSION_COOKIE_NAME = none)
    (hkey : jsStrTruthy env.openaiApiKey = true) :
    (POSTr env req).response.setCookie =
      some (serializeSessionCookie env (generatedId env)) := by
  have hres : resolveUserId env req =
      (generatedId env, some (serializeSessionCookie env (generatedId env))) := by
    simp [resolveUserId, hno]
  cases hwf : jsFalsy (resolvedWorkflowId env (safeParseJson req.body)) with
  | true =>
    simp [POSTr, hkey, hres, hwf, buildJsonResponse, serializeSessionCookie_ne_empty]
  | false =>
    rcases hup : env.upstream with e | up
    · simp [POSTr, hkey, hres, hwf, hup, buildJsonResponse,
        serializeSessionCookie_ne_empty]
    · cases hok : statusOk up.status <;>
        simp [POSTr, hkey, hres, hwf, hup, hok, buildJsonResponse,
          serializeSessionCookie_ne_empty]

/-- Environment with no API credential (and no cookie in `reqA`). -/
def envC3 : Env :=
  Env.mk none none false true 0 "fb" (Except.error ()) (Except.error ())

/-- **C3 counterexample.** A cookie-less request handled without the
`OPENAI_API_KEY` credential gets a response with no `Set-Cookie` header at
all, contradicting the unconditional claim. -/
theorem C3_counterexample :
    getCookieValue reqA.cookieHeader SESSION_COOKIE_NAME = none ∧
    (POSTr envC3 reqA).response.setCookie = none :=
  ⟨rfl, rfl⟩

/-- **C3 (amended).** For a cookie-less request handled with the credential
configured and `crypto.randomUUID` available, the response carries a
`Set-Cookie` whose value is a syntactically valid UUID and whose attributes
are exactly `Path=/; Max-Age=2592000; HttpOnly; SameSite=Lax`, with
`Secure` appended exactly in production. -/
theorem C3_new_cookie (env : Env) (req : Req)
    (hno : getCookieValue req.cookieHeader SESSION_COOKIE_NAME = none)
    (hkey : jsStrTruthy env.openaiApiKey = true)
    (hcr : env.cryptoHasRandomUUID = true) :
    (POSTr env req).response.setCookie =
      some ("chatkit_session_id=" ++ randomUUID env.uuidSeed ++
        "; Path=/; Max-Age=2592000; HttpOnly; SameSite=Lax" ++
        (if env.nodeEnvProduction then "; Secure" else "")) ∧
    isValidUUID (randomUUID env.uuidSeed) = true := by
  have hgen : generatedId env = randomUUID env.uuidSeed := by
    simp [generatedId, hcr]
  have henc : encodeURIComponent (randomUUID env.uuidSeed) = randomUUID env.uuidSeed :=
    encodeURIComponent_of_unreserved _ (randomUUID_unreserved env.uuidSeed)
  constructor
  · rw [POSTr_setCookie_fresh env req hno hkey, hgen,
      serializeSessionCookie_explicit env _ henc]
  · exact isValidUUID_randomUUID env.uuidSeed

/-- **C3 witness.** The fresh-cookie shape at a concrete environment. -/
theorem C3_new_cookie_witness :
    (POSTr envA reqA).response.setCookie =
      some ("chatkit_session_id=" ++ randomUUID 0 ++
        "; Path=/; Max-Age=2592000; HttpOnly; SameSite=Lax") ∧
    isValidUUID (randomUUID 0) = true := by
  have h := C3_new_cookie envA reqA rfl rfl rfl
  constructor
  · rw [h.1]
    rfl
  · exact h.2

/-- A whitespace-normalized string: every whitespace character is a plain
space, no two adjacent whitespace characters, and no leading or trailing
whitespace. -/
def WsNormalized (s : String) : Prop :=
  (∀ c ∈ s.data, isJsWs c = true → c = ' ') ∧
  List.Chain' (fun a b => ¬(isJsWs a = true ∧ isJsWs b = true)) s.data ∧
  (∀ c, s.data.head? = some c → isJsWs c = false) ∧
  (∀ c, s.data.getLast? = some c → isJsWs c = false)

/-- Whitespace characters surviving the collapse pass are single spaces. -/
theorem collapseWsAux_ws_space (l : List Char) :
    ∀ (b : Bool), ∀ c ∈ collapseWsAux b l, isJsWs c = true → c = ' ' := by
  induction l with
  | nil => intro b c hc; simp [collapseWsAux] at hc
  | cons x t ih =>
    intro b c hc hw
    by_cases hx : isJsWs x = true
    · cases b with
      | true =>
        simp only [collapseWsAux, hx, if_true] at hc
        exact ih true c hc hw
      | false =>
        simp only [collapseWsAux, hx, if_true, if_false, Bool.false_eq_true,
          List.mem_cons] at hc
        rcases hc with rfl | hc
        · rfl
        · exact ih true c hc hw
    · have hx2 : isJsWs x = false := by
        cases hxx : isJsWs x
        · rfl
        · exact absurd hxx hx
      simp only [collapseWsAux, hx2, Bool.false_eq_true, if_false, List.mem_cons] at hc
      rcases hc with rfl | hc
      · rw [hw] at hx2
        exact Bool.noConfusion hx2
      · exact ih false c hc hw

/-- After a collapsed whitespace run, the next emitted character is not
whitespace. -/
theorem collapseWsAux_true_head (l : List Char) :
    ∀ c, (collapseWsAux true l).head? = some c → isJsWs c = false := by
  induction l with
  | nil => intro c h; simp [collapseWsAux] at h
  | cons x t ih =>
    intro c h
    by_cases hx : isJsWs x = true
    · simp only [collapseWsAux, hx, if_true] at h
      exact ih c h
    · have hx2 : isJsWs x = false := by
        cases hxx : isJsWs x
        · rfl
        · exact absurd hxx hx
      simp only [collapseWsAux, hx2, Bool.false_eq_true, if_false,
        List.head?_cons, Option.some.injEq] at h
      rw [← h]
      exact hx2

/-- The collapse pass never emits two adjacent whitespace characters. -/
theorem collapseWsAux_chain (l : List Char) : ∀ b param,
    param = collapseWsAux b l →
    List.Chain' (fun a c => ¬(isJsWs a = true ∧ isJsWs c = true)) param := by
  induction l with
  | nil => intro b param hp; subst hp; simp [collapseWsAux]
  | cons x t ih =>
    intro b param hp
    subst hp
    by_cases hx : isJsWs x = true
    · cases b with
      | true =>
        simp only [collapseWsAux, hx, if_true]
        exact ih true _ rfl
      | false =>
        simp only [collapseWsAux, hx, if_true, if_false]
        refine List.chain'_cons'.mpr ⟨?_, ih true _ rfl⟩
        intro y hy
        rintro ⟨-, hys⟩
        rw [collapseWsAux_true_head t y hy] at hys
        exact Bool.noConfusion hys
    · have hx2 : isJsWs x = false := by
        cases hxx : isJsWs x
        · rfl
        · exact absurd hxx hx
      simp only [collapseWsAux, hx2, Bool.false_eq_true, if_false]
      refine List.chain'_cons'.mpr ⟨?_, ih false _ rfl⟩
      intro y hy
      rintro ⟨hxs, -⟩
      rw [hx2] at hxs
      exact Bool.noConfusion hxs

/-- Trimming keeps only characters of the original list. -/
theorem trimChars_subset (l : List Char) : ∀ c ∈ trimChars l, c ∈ l := by
  intro c hc
  rw [trimChars, List.mem_reverse] at hc
  have hc2 := (List.dropWhile_sublist _).subset hc
  rw [List.mem_reverse] at hc2
  exact (List.dropWhile_sublist _).subset hc2

/-- `dropWhile` results are suffixes. -/
theorem dropWhile_isSuffix (p : Char → Bool) (l : List Char) :
    l.dropWhile p <:+ l :=
  ⟨l.takeWhile p, List.takeWhile_append_dropWhile p l⟩

/-- The trimmed list is an infix of the original. -/
theorem trimChars_within (l : List Char) : trimChars l <:+: l := by
  have h1 : l.dropWhile isJsWs <:+ l := dropWhile_isSuffix _ l
  have h2 : trimChars l <+: l.dropWhile isJsWs := by
    have h3 : ((l.dropWhile isJsWs).reverse.dropWhile isJsWs).reverse <+:
        ((l.dropWhile isJsWs).reverse).reverse :=
      List.reverse_prefix.mpr (dropWhile_isSuffix _ _)
    rw [List.reverse_reverse] at h3
    exact h3
  exact List.IsInfix.trans (List.IsPrefix.isInfix h2) (List.IsSuffix.isInfix h1)

/-- The head surviving `dropWhile p` fails `p`. -/
theorem head?_dropWhile_not (p : Char → Bool) (l : List Char) :
    ∀ c, (l.dropWhile p).head? = some c → p c = false := by
  induction l with
  | nil => intro c h; simp at h
  | cons x t ih =>
    intro c h
    by_cases hx : p x = true
    · rw [List.dropWhile_cons_of_pos hx] at h
      exact ih c h
    · have hx2 : p x = false := by
        cases hxx : p x
        · rfl
        · exact absurd hxx hx
      rw [List.dropWhile_cons_of_neg (by simp [hx2])] at h
      simp only [List.head?_cons, Option.some.injEq] at h
      rw [← h]
      exact hx2

/-- Prefixes preserve the head element. -/
theorem head?_of_leading {l₁ l₂ : List Char} (h : l₁ <+: l₂) (c : Char)
    (hc : l₁.head? = some c) : l₂.head? = some c := by
  obtain ⟨t, rfl⟩ := h
  cases l₁ with
  | nil => simp at hc
  | cons x xs => simpa using hc

/-- `normalizeWs` output satisfies the normalization contract. -/
theorem wsNormalized_normalizeWs (s : String) : WsNormalized (normalizeWs s) := by
  have hdata : (normalizeWs s).data = trimChars (collapseWsAux false s.data) := rfl
  refine ⟨?_, ?_, ?_, ?_⟩
  · intro c hc hw
    rw [hdata] at hc
    exact collapseWsAux_ws_space s.data false c
      (trimChars_subset _ c hc) hw
  · rw [hdata]
    exact List.Chain'.infix (collapseWsAux_chain s.data false _ rfl) (trimChars_within _)
  · intro c hc
    rw [hdata] at hc
    have hpre : trimChars (collapseWsAux false s.data) <+:
        (collapseWsAux false s.data).dropWhile isJsWs := by
      have h3 := List.reverse_prefix.mpr
        (dropWhile_isSuffix isJsWs ((collapseWsAux false s.data).dropWhile isJsWs).reverse)
      rw [List.reverse_reverse] at h3
      exact h3
    exact head?_dropWhile_not isJsWs _ c (head?_of_leading hpre c hc)
  · intro c hc
    rw [hdata] at hc
    have h1 : (trimChars (collapseWsAux false s.data)).reverse =
        ((collapseWsAux false s.data).dropWhile isJsWs).reverse.dropWhile isJsWs := by
      rw [trimChars, List.reverse_reverse]
    have h2 : (trimChars (collapseWsAux false s.data)).reverse.head? = some c := by
      rw [List.head?_reverse]
      exact hc
    rw [h1] at h2
    exact head?_dropWhile_not isJsWs _ c h2

/-- Case analysis of one `onClientTool` invocation: either it emits no
`saveFact` call and leaves the de-duplication set unchanged, or it is a
`record_fact` with a fresh non-empty id, emits exactly one `saveFact` with
the whitespace-normalized text, and inserts the id. -/
theorem onClientTool_cases (facts : List String) (name : String)
    (params : List (String × Json)) :
    (((onClientTool facts name params).calls = [] ∨
      ∃ s, (onClientTool facts name params).calls = [HostCall.themeRequest s]) ∧
      (onClientTool facts name params).facts = facts) ∨
    (paramString params "fact_id" ≠ "" ∧
      paramString params "fact_id" ∉ facts ∧
      (onClientTool facts name params).calls =
        [HostCall.saveFact (paramString params "fact_id")
          (normalizeWs (paramString params "fact_text"))] ∧
      (onClientTool facts name params).facts =
        paramString params "fact_id" :: facts) := by
  unfold onClientTool
  by_cases h1 : (name == "switch_theme") = true
  · rw [if_pos h1]
    left
    rcases hm : (params.find? (fun p => p.1 == "theme")).map (fun p => p.2) with _ | v
    · simp [hm]
    · cases v with
      | str s =>
        simp only [hm]
        by_cases hs : (s == "light" || s == "dark") = true
        · rw [if_pos hs]
          exact ⟨Or.inr ⟨s, rfl⟩, rfl⟩
        · rw [if_neg hs]
          exact ⟨Or.inl rfl, rfl⟩
      | null => simp [hm]
      | num n => simp [hm]
      | bool b => simp [hm]
      | obj fs => simp [hm]
      | arr xs => simp [hm]
  · rw [if_neg h1]
    by_cases h2 : (name == "record_fact") = true
    · rw [if_pos h2]
      by_cases h3 : (paramString params "fact_id" == "" ||
          facts.contains (paramString params "fact_id")) = true
      · rw [if_pos h3]
        exact Or.inl ⟨Or.inl rfl, rfl⟩
      · rw [if_neg h3]
        right
        simp only [Bool.or_eq_true, not_or, Bool.not_eq_true] at h3
        refine ⟨?_, ?_, rfl, rfl⟩
        · exact beq_eq_false_iff_ne.mp h3.1
        · have h4 := h3.2
          simp at h4
          exact h4
    · rw [if_neg h2]
      exact Or.inl ⟨Or.inl rfl, rfl⟩

/-- `emittedFactIds` distributes over append. -/
theorem emittedFactIds_append (l₁ l₂ : List HostCall) :
    emittedFactIds (l₁ ++ l₂) = emittedFactIds l₁ ++ emittedFactIds l₂ :=
  List.filterMap_append l₁ l₂ _

/-- Every `saveFact` the panel ever emits carries a whitespace-normalized
text and a non-empty id. -/
theorem panelRun_saveFact_shape (evs : List PanelEvent) :
    ∀ st id text, HostCall.saveFact id text ∈ (panelRun st evs).2 →
      (∃ raw, text = normalizeWs raw) ∧ id ≠ "" := by
  induction evs with
  | nil => intro st id text h; simp [panelRun] at h
  | cons e es ih =>
    intro st id text h
    simp only [panelRun, List.mem_append] at h
    rcases h with h | h
    · cases e with
      | threadChange => simp [panelStep] at h
      | resetChat => simp [panelStep] at h
      | clientTool name params =>
        have h2 : HostCall.saveFact id text ∈
            (onClientTool st.processedFacts name params).calls := h
        rcases onClientTool_cases st.processedFacts name params with
          ⟨hcase, -⟩ | ⟨hne, -, hcalls, -⟩
        · rcases hcase with hnil | ⟨s, hth⟩
          · rw [hnil] at h2
            simp at h2
          · rw [hth] at h2
            simp at h2
        · rw [hcalls] at h2
          simp only [List.mem_singleton, HostCall.saveFact.injEq] at h2
          obtain ⟨hid, htext⟩ := h2
          exact ⟨⟨_, htext⟩, by rw [hid]; exact hne⟩
    · exact ih _ id text h

/-- De-duplication invariant: starting from any state, over a clear-free
event sequence each fact id is forwarded at most once, and never if it is
already in the processed set. -/
theorem panelRun_count (evs : List PanelEvent) :
    hasClear evs = false →
    ∀ st : PanelState, ∀ id : String,
      (id ∈ st.processedFacts → (emittedFactIds (panelRun st evs).2).count id = 0) ∧
      (emittedFactIds (panelRun st evs).2).count id ≤ 1 := by
  induction evs with
  | nil =>
    intro hnc st id
    constructor
    · intro _
      simp [panelRun, emittedFactIds]
    · simp [panelRun, emittedFactIds]
  | cons e es ih =>
    intro hnc st id
    cases e with
    | threadChange => simp [hasClear] at hnc
    | resetChat => simp [hasClear] at hnc
    | clientTool name params =>
      have hnc' : hasClear es = false := by simpa [hasClear] using hnc
      have hsplit : (panelRun st (PanelEvent.clientTool name params :: es)).2 =
          (onClientTool st.processedFacts name params).calls ++
          (panelRun (panelStep st (PanelEvent.clientTool name params)).1 es).2 := rfl
      rcases onClientTool_cases st.processedFacts name params with
        ⟨hcase, hfacts⟩ | ⟨hne, hnmem, hcalls, hfacts⟩
      · have hstate : (panelStep st (PanelEvent.clientTool name params)).1.processedFacts =
            st.processedFacts := hfacts
        have hemit : emittedFactIds (onClientTool st.processedFacts name params).calls
            = [] := by
          rcases hcase with hnil | ⟨s, hth⟩
          · rw [hnil]; rfl
          · rw [hth]; rfl
        have hih := ih hnc' (panelStep st (PanelEvent.clientTool name params)).1 id
        constructor
        · intro hmem
          rw [hsplit, emittedFactIds_append, hemit, List.nil_append]
          exact hih.1 (by rw [hstate]; exact hmem)
        · rw [hsplit, emittedFactIds_append, hemit, List.nil_append]
          exact hih.2
      · have hstate : (panelStep st (PanelEvent.clientTool name params)).1.processedFacts =
            paramString params "fact_id" :: st.processedFacts := hfacts
        have hemit : emittedFactIds (onClientTool st.processedFacts name params).calls =
            [paramString params "fact_id"] := by
          rw [hcalls]; rfl
        have hih := ih hnc' (panelStep st (PanelEvent.clientTool name params)).1 id
        constructor
        · intro hmem
          have hid : id ≠ paramString params "fact_id" := by
            intro heq
            rw [heq] at hmem
            exact hnmem hmem
          have c1 : ([paramString params "fact_id"] : List String).count id = 0 := by
            simp [List.count_cons, beq_eq_false_iff_ne.mpr (Ne.symm hid)]
          have c2 : (emittedFactIds
              (panelRun (panelStep st (PanelEvent.clientTool name params)).1 es).2).count id
              = 0 :=
            hih.1 (by rw [hstate]; exact List.mem_cons_of_mem _ hmem)
          rw [hsplit, emittedFactIds_append, hemit, List.count_append, c1, c2]
        · by_cases hid : id = paramString params "fact_id"
          · have c1 : ([paramString params "fact_id"] : List String).count id = 1 := by
              simp [List.count_cons, hid]
            have c2 : (emittedFactIds
                (panelRun (panelStep st (PanelEvent.clientTool name params)).1 es).2).count id
                = 0 :=
              hih.1 (by rw [hstate, hid]; exact List.mem_cons_self _ _)
            rw [hsplit, emittedFactIds_append, hemit, List.count_append, c1, c2]
          · have c1 : ([paramString params "fact_id"] : List String).count id = 0 := by
              simp [List.count_cons, beq_eq_false_iff_ne.mpr (Ne.symm hid)]
            have c2 := hih.2
            rw [hsplit, emittedFactIds_append, hemit, List.count_append, c1]
            omega

/-- **C8.** Over any clear-free sequence of panel events from a fresh widget
lifetime, the host fact callback fires at most once per fact id; every
forwarded fact text is whitespace-normalized (single spaces, no runs, no
edges) and its id non-empty; thread change and reset clear the
de-duplication set; and after a clear the same id can be forwarded again
(concretely, twice around a thread change). -/
theorem C8_record_fact_dedup :
    (∀ evs : List PanelEvent, hasClear evs = false → ∀ id : String,
      (emittedFactIds (panelRun initialPanelState evs).2).count id ≤ 1) ∧
    (∀ (st : PanelState) (evs : List PanelEvent) (id text : String),
      HostCall.saveFact id text ∈ (panelRun st evs).2 →
        WsNormalized text ∧ id ≠ "") ∧
    (∀ st : PanelState,
      (panelStep st PanelEvent.threadChange).1.processedFacts = [] ∧
      (panelStep st PanelEvent.resetChat).1.processedFacts = []) ∧
    emittedFactIds (panelRun initialPanelState
      [PanelEvent.clientTool "record_fact"
        [("fact_id", Json.str "a"), ("fact_text", Json.str "x")],
       PanelEvent.threadChange,
       PanelEvent.clientTool "record_fact"
        [("fact_id", Json.str "a"), ("fact_text", Json.str "x")]]).2 = ["a", "a"] := by
  refine ⟨?_, ?_, ?_, ?_⟩
  · intro evs hnc id
    exact (panelRun_count evs hnc initialPanelState id).2
  · intro st evs id text h
    obtain ⟨⟨raw, rfl⟩, hne⟩ := panelRun_saveFact_shape evs st id text h
    exact ⟨wsNormalized_normalizeWs raw, hne⟩
  · intro st
    exact ⟨rfl, rfl⟩
  · rfl

/-- **C8 witness.** Two same-id `record_fact` calls in one clear-free run
forward the fact only once. -/
theorem C8_record_fact_dedup_witness :
    hasClear [PanelEvent.clientTool "record_fact"
        [("fact_id", Json.str "a"), ("fact_text", Json.str "x")],
      PanelEvent.clientTool "record_fact"
        [("fact_id", Json.str "a"), ("fact_text", Json.str "y")]] = false ∧
    (emittedFactIds (panelRun initialPanelState
      [PanelEvent.clientTool "record_fact"
        [("fact_id", Json.str "a"), ("fact_text", Json.str "x")],
       PanelEvent.clientTool "record_fact"
        [("fact_id", Json.str "a"), ("fact_text", Json.str "y")]]).2).count "a" ≤ 1 :=
  ⟨rfl, C8_record_fact_dedup.1
    [PanelEvent.clientTool "record_fact"
      [("fact_id", Json.str "a"), ("fact_text", Json.str "x")],
     PanelEvent.clientTool "record_fact"
      [("fact_id", Json.str "a"), ("fact_text", Json.str "y")]] rfl "a"⟩
